import Mathlib

/-!
Shallow embedding of `bccr/download.py`: readers that normalize BCCR
tabular charts into tidy time-indexed tables.

Modelling conventions: text cells are `String`; numeric values are
`Option ℚ` with `none` for a missing value (`NaN`); timestamps are month
indices `12 * year + (month - 1)`, so a monthly step is `+1` and the
December month-end stamp of year `y` is index `12 * y + 11`.  The helper
module `bccr/utils.py` (`seriesAsDict`, `findFirstElement`, `tidy`) is not
under `src/`; those three helpers are modelled from the spec, as marked in
their doc comments.  Everything else is translated from
`src/bccr/download.py` and from the documented semantics of the pandas
calls it makes (`stack(dropna=False)` = row-major flattening,
`transpose`, `date_range`, and `concat(axis=1)` = outer join on the
sorted union of the indexes, duplicate column names kept).
-/

namespace BCCR

/-- RawGrid: a rectangular array of text cells, as produced by the
upstream table source (`pd.read_html` inside `downloadChart`). -/
abbrev RawGrid := List (List String)

/-- FlatSeries: a time-indexed series of (month-index, possibly missing
value) pairs — the embedding of a pandas `Series` with a `DatetimeIndex`. -/
abbrev FlatSeries := List (Nat × Option ℚ)

/-- Aggregation function used by the resampler (`func` argument of the
readers). -/
abbrev Agg := List (Option ℚ) → Option ℚ

/-- CanonicalTable: the embedding of a pandas `DataFrame` — a shared time
axis together with named value columns aligned on it. -/
structure CanonicalTable where
  index : List Nat
  cols : List (String × List (Option ℚ))
  deriving Repr, DecidableEq

/-- Cell `(i, j)` of a grid, the embedding of positional `iloc`;
out-of-range reads give the empty string (real grids are rectangular). -/
def cell (g : RawGrid) (i j : Nat) : String := (g.getD i []).getD j ""

/-- Column `j` of a grid, the embedding of selecting a renamed column such
as `rawdata['V1']`. -/
def column (j : Nat) (g : RawGrid) : List String := g.map (fun r => r.getD j "")

/-- Accumulator pass of `digitsVal`. -/
def digitsValAux : List Char → Nat → Option Nat
  | [], acc => some acc
  | c :: cs, acc => if c.isDigit then digitsValAux cs (10 * acc + (c.toNat - 48)) else none

/-- Numeric value of a list of decimal digit characters; `none` if the
list is empty or holds a non-digit. -/
def digitsVal (cs : List Char) : Option Nat :=
  if cs.isEmpty then none else digitsValAux cs 0

/-- Unsigned decimal numeral, with an optional fractional part after a
single dot. -/
def parseUnsigned (cs : List Char) : Option ℚ :=
  let ip := cs.takeWhile (fun c => c != '.')
  match cs.dropWhile (fun c => c != '.') with
  | [] => (digitsVal ip).map (fun n => (n : ℚ))
  | _ :: frac =>
    match digitsVal ip, digitsVal frac with
    | some i, some f => some ((i : ℚ) + (f : ℚ) / (10 : ℚ) ^ frac.length)
    | _, _ => none

/-- Modelled from the spec: the cell-to-number conversion inside `tidy`
(`bccr/utils.py`, not under `src/`) — §4.3: a cell that is textually empty
or non-numeric becomes a missing value rather than causing failure. -/
def parseCell (s : String) : Option ℚ :=
  match s.data with
  | [] => none
  | '-' :: rest => (parseUnsigned rest).map (fun q => -q)
  | c :: rest => parseUnsigned (c :: rest)

/-- Year label of an anchor cell, e.g. `"2020"`; the readers feed it to
`pd.date_range`, which fails on a non-numeric year (modelled as an error). -/
def parseYear (s : String) : Option Nat := digitsVal s.data

/-- Modelled from the spec: `findFirstElement` (`bccr/utils.py`, not under
`src/`) scans a column for the first cell matching the given token or
pattern (§4.2 "scan ... for the first cell matching"); `none` when no cell
matches, which the readers surface as `UnrecognizedLayout` (§4.2, §7). -/
def findFirstElement (p : String → Bool) : List String → Option Nat
  | [] => none
  | c :: rest => if p c then some 0 else (findFirstElement p rest).map (fun i => i + 1)

/-- Anchor token test of the month/year layouts: the literal month-name
token `'Enero'` passed to `findFirstElement` in `readYearMonth` and
`readMonthYear`. -/
def matchesEnero (s : String) : Bool := s == "Enero"

/-- Anchor pattern test of the indicator layout: the regex `'^[12]'`
passed to `findFirstElement` in `readIndicatorYear` matches exactly the
cells whose first character is `1` or `2`. -/
def startsWith12 (s : String) : Bool :=
  match s.data with
  | [] => false
  | c :: _ => c == '1' || c == '2'

/-- Error outcomes of a reader: anchor token or pattern not found
(`UnrecognizedLayout`, §4.2/§7), or a start-year cell `pd.date_range`
cannot parse. -/
inductive Err where
  | UnrecognizedLayout
  | InvalidDate
  deriving Repr, DecidableEq

/-- Embedding of `pd.date_range(year0 + '/01', periods = n, freq = 'M')`:
`n` consecutive monthly timestamps starting at the month index `start`. -/
def monthRange (start n : Nat) : List Nat := (List.range n).map (fun k => start + k)

/-- December of year `y` as a month index — the year's month-end stamp
(`y`-12-31) that `freq='A'` produces. -/
def decemberOf (y : Nat) : Nat := 12 * y + 11

/-- Embedding of `pd.date_range(year0 + '/12', periods = n, freq = 'A')`:
annual December month-end timestamps of `n` consecutive years from `y0`. -/
def annualRange (y0 n : Nat) : List Nat := (List.range n).map (fun k => decemberOf (y0 + k))

/-- Sum and count of the non-missing values of a window. -/
def sumCount : List (Option ℚ) → ℚ × Nat
  | [] => (0, 0)
  | none :: xs => sumCount xs
  | some a :: xs => ((sumCount xs).1 + a, (sumCount xs).2 + 1)

/-- Modelled from the spec: the default aggregation of `tidy`
(`bccr/utils.py`, not under `src/`; the readers document
`func: ... default=np.mean`) — the arithmetic mean of the non-missing
values of the window, missing when every value of the window is missing
(§4.4). -/
def aggMean (xs : List (Option ℚ)) : Option ℚ :=
  let sc := sumCount xs
  if sc.2 = 0 then none else some (sc.1 / (sc.2 : ℚ))

/-- Values of the native-frequency points falling in calendar window `k`
of width `w` months; the window of a timestamp `t` is `t / w`, so
quarterly (`w = 3`) and annual (`w = 12`) windows are calendar aligned. -/
def windowVals (w : Nat) (pts : FlatSeries) (k : Nat) : List (Option ℚ) :=
  (pts.filter (fun p => p.1 / w == k)).map Prod.snd

/-- Modelled from the spec: the resampler inside `tidy` groups consecutive
native-frequency points into non-overlapping calendar-aligned windows of
the target frequency and emits one output point per window, aggregated by
the caller's function (§4.4). -/
def resample (w : Nat) (agg : Agg) (pts : FlatSeries) : FlatSeries :=
  ((pts.map (fun p => p.1 / w)).dedup).map (fun k => (k, agg (windowVals w pts k)))

/-- Modelled from the spec: `tidy` (`bccr/utils.py`, not under `src/`)
takes the series already paired with the caller-built time index, and
resamples it when a target frequency is requested, with the caller's
aggregation defaulting to the mean over non-missing values; with no target
frequency it is a passthrough (§4.4). -/
def tidy (s : FlatSeries) (freq : Option Nat) (func : Option Agg) : FlatSeries :=
  match freq with
  | none => s
  | some w => resample w (func.getD aggMean) s

/-- Row-major sequence of the cells of a sub-grid — the embedding of
`DataFrame.stack(dropna=False)`. -/
def rowMajor (g : RawGrid) : List String := g.flatten

/-- GridFlattener: parse the cells of the sub-grid in row-major order and
pair them with consecutive monthly timestamps from `start` — the call
`tidy(rawdata.stack(dropna=False), timeindex=pd.date_range(year0+'/01',
periods=rawdata.size, freq='M'), ...)` of `readYearMonth`. -/
def flattenGrid (sub : RawGrid) (start : Nat) : FlatSeries :=
  (monthRange start (rowMajor sub).length).zip ((rowMajor sub).map parseCell)

/-- Embedding of `DataFrame.transpose()` on a rectangular grid. -/
def transposeGrid (g : RawGrid) : RawGrid :=
  (List.range (g.headD []).length).map (fun j => g.map (fun r => r.getD j ""))

/-- Embedding of `varName = varName if varName else rawdata['V0'][0]`
(download.py lines 165 and 223): an empty display name falls back to the
chart title sitting in the top-left cell of the fetched grid. -/
def resolveVarName (v : String) (g : RawGrid) : String :=
  if v = "" then cell g 0 0 else v

/-- Per-chart body of `readYearMonth` (download.py lines 164-174): resolve
the display name, find the `'Enero'` anchor in column `V1`, drop the rows
through the anchor, read the start year from the first remaining `V0`
cell, delete the year-label column, and flatten row-major from January of
the start year. -/
def readYearMonthChart (v : String) (g : RawGrid) (freq : Option Nat) (func : Option Agg) :
    Except Err (String × FlatSeries) :=
  match findFirstElement matchesEnero (column 1 g) with
  | none => .error .UnrecognizedLayout
  | some h =>
    let name := resolveVarName v g
    let rows := g.drop (h + 1)
    match parseYear (cell rows 0 0) with
    | none => .error .InvalidDate
    | some y0 =>
      let sub := rows.map (fun r => r.drop 1)
      .ok (name, tidy (flattenGrid sub (12 * y0)) freq func)

/-- Per-chart body of `readMonthYear` (download.py lines 222-231): resolve
the display name, find the `'Enero'` anchor in column `V0`, read the start
year from `iloc[h-1, 1]` (Python negative indexing reaches the last row
when `h = 0`), drop the rows before the anchor and the month-label column,
transpose, and flatten row-major (months consecutive, years concatenated). -/
def readMonthYearChart (v : String) (g : RawGrid) (freq : Option Nat) (func : Option Agg) :
    Except Err (String × FlatSeries) :=
  match findFirstElement matchesEnero (column 0 g) with
  | none => .error .UnrecognizedLayout
  | some h =>
    let name := resolveVarName v g
    let yearRow := if h = 0 then g.length - 1 else h - 1
    match parseYear (cell g yearRow 1) with
    | none => .error .InvalidDate
    | some y0 =>
      let sub := (g.drop h).map (fun r => r.drop 1)
      .ok (name, tidy (flattenGrid (transposeGrid sub) (12 * y0)) freq func)

/-- Anchor search of `readIndicatorYear` (download.py line 275): index of
the first row whose second-column cell matches `'^[12]'`. -/
def anchorIndicator (g : RawGrid) : Option Nat :=
  findFirstElement startsWith12 (column 1 g)

/-- Per-chart body of `readIndicatorYear` (download.py lines 274-284):
anchor on the year pattern in column `V1`, read the start year from the
anchor cell, take indicator names from `V0` of the rows below, delete that
column, transpose so the year columns become annual (December) time steps,
and emit one series per indicator, named by concatenating the caller's
alias in front of the indicator name. -/
def readIndicatorYearChart (v : String) (g : RawGrid) (freq : Option Nat) (func : Option Agg) :
    Except Err (List (String × FlatSeries)) :=
  match anchorIndicator g with
  | none => .error .UnrecognizedLayout
  | some h =>
    match parseYear (cell g h 1) with
    | none => .error .InvalidDate
    | some y0 =>
      let rows := g.drop (h + 1)
      let indicators := rows.map (fun r => r.getD 0 "")
      let subT := transposeGrid (rows.map (fun r => r.drop 1))
      let n := subT.length
      .ok (indicators.enum.map (fun p =>
        (v ++ p.2,
         tidy ((annualRange y0 n).zip ((subT.map (fun tr => tr.getD p.1 "")).map parseCell))
           freq func)))

/-- A series request: either a single chart number or an ordered
chart-number-to-name mapping. -/
inductive SeriesRequest where
  | single (id : Nat)
  | mapping (m : List (Nat × String))
  deriving Repr, DecidableEq

/-- Modelled from the spec: `seriesAsDict` (`bccr/utils.py`, not under
`src/`) normalizes the request into a canonical ordered identifier-to-name
mapping (§4.1); a bare identifier gets an empty display name, to be
resolved later from the fetched title (§3, SeriesRequest). -/
def seriesAsDict : SeriesRequest → List (Nat × String)
  | .single id => [(id, "")]
  | .mapping m => m

/-- Strictly increasing union of a list of timestamps — the index the
repeated outer joins of `pd.concat(axis=1)` produce. -/
def sortedUnion (ts : List Nat) : List Nat :=
  List.insertionSort (· ≤ ·) ts.dedup

/-- Value of a series at timestamp `t`: exact-match lookup, missing where
absent — the reindexing `pd.concat(axis=1)` (outer join) applies to each
column. -/
def lookupTS (s : FlatSeries) (t : Nat) : Option ℚ :=
  match s.find? (fun p => p.1 == t) with
  | some p => p.2
  | none => none

/-- Embedding of `pd.concat(rawdataList, axis=1)` (download.py lines 176,
234, 287): outer-join the named series on the sorted union of their
timestamps; column names are kept as given, duplicates included (pandas
does not rename on collision). -/
def concatTables (inputs : List (String × FlatSeries)) : CanonicalTable :=
  let axis := sortedUnion ((inputs.map (fun p => p.2.map Prod.fst)).flatten)
  ⟨axis, inputs.map (fun p => (p.1, axis.map (fun t => lookupTS p.2 t)))⟩

/-- Dynamic result type of the readers: pandas hands back either a
`Series` (flat) or a `DataFrame` (table). -/
inductive ReadResult where
  | flat (s : String × FlatSeries)
  | table (t : CanonicalTable)
  deriving Repr, DecidableEq

/-- Sequence per-chart results, stopping at the first error (an exception
aborts the download loop). -/
def collectE {α : Type} : List (Except Err α) → Except Err (List α)
  | [] => .ok []
  | x :: xs =>
    match x with
    | .error e => .error e
    | .ok a =>
      match collectE xs with
      | .error e => .error e
      | .ok l => .ok (a :: l)

/-- Embedding of `readYearMonth` (download.py lines 121-177): normalize
the request, read each chart, and `pd.concat(axis=1)` the results — the
concatenation always yields a `DataFrame`, whatever the request shape.
`fetch` abstracts `downloadChart`'s grid for a given chart number. -/
def readYearMonth (fetch : Nat → RawGrid) (req : SeriesRequest) (freq : Option Nat)
    (func : Option Agg) : Except Err ReadResult :=
  match collectE ((seriesAsDict req).map (fun p => readYearMonthChart p.2 (fetch p.1) freq func)) with
  | .error e => .error e
  | .ok l => .ok (.table (concatTables l))

/-- Embedding of `readMonthYear` (download.py lines 180-235): same
pipeline as `readYearMonth` over the transposed layout; the final
`pd.concat(axis=1)` again always yields a `DataFrame`. -/
def readMonthYear (fetch : Nat → RawGrid) (req : SeriesRequest) (freq : Option Nat)
    (func : Option Agg) : Except Err ReadResult :=
  match collectE ((seriesAsDict req).map (fun p => readMonthYearChart p.2 (fetch p.1) freq func)) with
  | .error e => .error e
  | .ok l => .ok (.table (concatTables l))

/-- Embedding of `readIndicatorYear` (download.py lines 238-288): each
chart contributes one series per indicator row; all are concatenated into
one `DataFrame`. -/
def readIndicatorYear (fetch : Nat → RawGrid) (req : SeriesRequest) (freq : Option Nat)
    (func : Option Agg) : Except Err ReadResult :=
  match collectE ((seriesAsDict req).map (fun p => readIndicatorYearChart p.2 (fetch p.1) freq func)) with
  | .error e => .error e
  | .ok l => .ok (.table (concatTables l.flatten))

/-- Base URL of the BCCR indicator site (download.py line 22). -/
def BCCR_URL : String := "http://indicadoreseconomicos.bccr.fi.cr/indicadoreseconomicos/"

/-- Embedding of `api` (download.py lines 25-77): build the query URL for
a chart, with optional year bounds and the Excel-export flag. -/
def api (chart : Nat) (first last : Option Nat) (excel : Bool) : String :=
  BCCR_URL ++ "Cuadros/frmVerCatCuadro.aspx?" ++ "CodCuadro=" ++ toString chart
  ++ (match first with | some f => "&FecInicial=" ++ toString f ++ "/01/01" | none => "")
  ++ (match last with | some l => "&FecFinal=" ++ toString l ++ "/12/31" | none => "")
  ++ (if excel then "&Exportar=True&Excel=True" else "")

/-- Result of `downloadChart`: the fetched grid, its renamed column
labels, and whatever was printed to the console. -/
structure DownloadResult where
  data : RawGrid
  dataCols : List String
  printed : List String
  deriving Repr, DecidableEq

/-- The console message `downloadChart` prints when `quiet` is false
(download.py lines 112-117): chart number, the first two `V0` cells when
non-empty, and the retrieval time and HTML url. -/
def infoString (chart : Nat) (g : RawGrid) (first last : Option Nat) (now : String) : String :=
  "Downloading chart " ++ toString chart ++ ":"
  ++ (((column 0 g).take 2).map (fun txt => if txt = "" then "" else "\n\t" ++ txt)).foldl
      (fun a b => a ++ b) ""
  ++ "\n\tRetrieved " ++ now ++ " from:"
  ++ "\n\t\t" ++ api chart first last false ++ "\n"

/-- Embedding of `downloadChart` (download.py lines 80-119): fetch the
grid at the chart url, rename its columns to `V0..Vn`, print an
information message unless `quiet`, and return the grid unchanged.
`fetchHtml` abstracts `pd.read_html` and `now` the wall clock. -/
def downloadChart (fetchHtml : String → RawGrid) (chart : Nat) (first last : Option Nat)
    (quiet : Bool) (now : String) : DownloadResult :=
  let rawdata := fetchHtml (api chart first last true)
  { data := rawdata
    dataCols := (List.range (rawdata.headD []).length).map (fun k => "V" ++ toString k)
    printed := if quiet then [] else [infoString chart rawdata first last now] }

/-- Claim-side predicate, written from the spec's words for comparison
with the code's anchor test: a four-digit year beginning with 1 or 2. -/
def specFourDigitYear (s : String) : Bool :=
  s.length == 4 && s.data.all (fun c => c.isDigit) && startsWith12 s

/-- Tests whether a reader result is a table (`DataFrame`). -/
def isTableResult : Except Err ReadResult → Bool
  | .ok (.table _) => true
  | _ => false

/-- Tests whether a reader result is a single flat series (`Series`). -/
def isFlatResult : Except Err ReadResult → Bool
  | .ok (.flat _) => true
  | _ => false

/-- Column names of a per-chart indicator result (empty on error). -/
def namesOf : Except Err (List (String × FlatSeries)) → List String
  | .ok l => l.map Prod.fst
  | .error _ => []

/-- Sample year-row/month-column grid: title row, header row with the
`Enero` anchor in column `V1`, then two year rows. -/
def gYM : RawGrid :=
  [["Oferta Monetaria M1", "", ""], ["Anos", "Enero", "Febrero"],
   ["2020", "10", "20"], ["2021", "30", ""]]

/-- Sample month-row/year-column grid: title row, year header row, then
month rows anchored at `Enero` in column `V0`. -/
def gMY : RawGrid :=
  [["Indice de precios", "", ""], ["Mes", "2020", "2021"],
   ["Enero", "1", "3"], ["Febrero", "2", "4"]]

/-- Sample indicator-row/year-column grid: two title rows, a year header
row anchored at `2019` in column `V1`, then two indicator rows. -/
def gIY : RawGrid :=
  [["Titulo grande", "", ""], ["Cuadro X", "", ""], ["", "2019", "2020"],
   ["Agriculture", "10", "20"], ["Industry", "30", "40"]]

/-- Grid with no recognizable anchor in any column. -/
def gBad : RawGrid := [["a", "b"], ["c", "d"]]

/-- Indicator grid whose second column holds a cell starting with `1` that
is not a four-digit year, above the real year header. -/
def gC3 : RawGrid :=
  [["Titulo", "x", ""], ["Indicadores", "1er Trim", ""],
   ["", "2019", "2020"], ["Agri", "1", "2"]]

/-- Two named series with the same display name, as obtained from two
charts whose requests resolve to the same name. -/
def dupInputs : List (String × FlatSeries) :=
  [("M1", [(0, some 1)]), ("M1", [(0, some 2)])]

/-- Series A and B of the merge example: overlapping but non-identical
monthly timestamp sets (2020-01/02 versus 2020-02/03). -/
def inputsAB : List (String × FlatSeries) :=
  [("A", [(24240, some 1), (24241, some 2)]),
   ("B", [(24241, some 3), (24242, some 4)])]

/-! Helper lemmas about the embedded operations. -/

theorem findFirstElement_eq_none (p : String → Bool) (l : List String)
    (h : ∀ c ∈ l, p c = false) : findFirstElement p l = none := by
  induction l with
  | nil => rfl
  | cons c rest ih =>
    have hc := h c (List.mem_cons_self c rest)
    simp only [findFirstElement, hc, Bool.false_eq_true, if_false]
    rw [ih (fun x hx => h x (List.mem_cons_of_mem c hx))]
    rfl

theorem findFirstElement_spec (p : String → Bool) (l : List String) (i : Nat)
    (h : findFirstElement p l = some i) :
    ∃ c, l[i]? = some c ∧ p c = true
      ∧ ∀ j, j < i → ∀ c', l[j]? = some c' → p c' = false := by
  induction l generalizing i with
  | nil => simp [findFirstElement] at h
  | cons c rest ih =>
    by_cases hc : p c
    · simp only [findFirstElement, hc, if_true, Option.some.injEq] at h
      subst h
      exact ⟨c, by simp, hc, fun j hj _ _ => absurd hj (Nat.not_lt_zero j)⟩
    · simp only [findFirstElement, hc, Bool.false_eq_true, if_false] at h
      cases hrest : findFirstElement p rest with
      | none => rw [hrest] at h; simp at h
      | some i' =>
        rw [hrest] at h
        simp only [Option.map_some', Option.some.injEq] at h
        subst h
        obtain ⟨c', hc', hp', hprev⟩ := ih i' hrest
        refine ⟨c', by simpa using hc', hp', ?_⟩
        intro j hj d hd
        match j with
        | 0 =>
          simp only [List.getElem?_cons_zero, Option.some.injEq] at hd
          subst hd
          exact Bool.eq_false_iff.mpr hc
        | j + 1 =>
          exact hprev j (Nat.lt_of_succ_lt_succ hj) d (by simpa using hd)

theorem sortedUnion_sorted (ts : List Nat) : (sortedUnion ts).Sorted (· < ·) := by
  have hs : (sortedUnion ts).Sorted (· ≤ ·) := List.sorted_insertionSort _ _
  have hn : (sortedUnion ts).Nodup :=
    ((List.perm_insertionSort (· ≤ ·) ts.dedup).nodup_iff).2 (List.nodup_dedup ts)
  exact hs.lt_of_le hn

theorem mem_sortedUnion (ts : List Nat) (t : Nat) : t ∈ sortedUnion ts ↔ t ∈ ts := by
  unfold sortedUnion
  rw [List.mem_insertionSort, List.mem_dedup]

theorem lookupTS_eq_of_mem (s : FlatSeries) (t : Nat) (v : Option ℚ)
    (hn : (s.map Prod.fst).Nodup) (hm : (t, v) ∈ s) : lookupTS s t = v := by
  induction s with
  | nil => cases hm
  | cons a rest ih =>
    rcases List.mem_cons.1 hm with heq | htail
    · subst heq
      simp [lookupTS, List.find?]
    · have hne : a.1 ≠ t := by
        intro heq
        have hmem : t ∈ rest.map Prod.fst := by
          simpa using List.mem_map_of_mem Prod.fst htail
        rw [List.map_cons, List.nodup_cons, heq] at hn
        exact hn.1 hmem
      have hfind : List.find? (fun p => p.1 == t) (a :: rest)
          = List.find? (fun p => p.1 == t) rest :=
        List.find?_cons_of_neg _ (by simpa using hne)
      have ih' := ih (by rw [List.map_cons, List.nodup_cons] at hn; exact hn.2) htail
      unfold lookupTS at ih' ⊢
      rw [hfind]
      exact ih'

theorem lookupTS_eq_none (s : FlatSeries) (t : Nat)
    (h : t ∉ s.map Prod.fst) : lookupTS s t = none := by
  have hf : s.find? (fun p => p.1 == t) = none := by
    rw [List.find?_eq_none]
    intro x hx hbeq
    have hxt : x.1 = t := by simpa using hbeq
    exact h (hxt ▸ List.mem_map_of_mem Prod.fst hx)
  simp [lookupTS, hf]

/-! Claims. -/

/-- C10: for a fixed chart identifier and year bounds (and a fixed
upstream fetch and clock), `downloadChart` returns the same data (grid and
renamed columns) whether `quiet` is true or false — the flag controls
console printing only. -/
theorem downloadChart_quiet_same_data (fetchHtml : String → RawGrid) (chart : Nat)
    (first last : Option Nat) (now : String) :
    (downloadChart fetchHtml chart first last true now).data
      = (downloadChart fetchHtml chart first last false now).data
    ∧ (downloadChart fetchHtml chart first last true now).dataCols
      = (downloadChart fetchHtml chart first last false now).dataCols :=
  ⟨rfl, rfl⟩

/-- C1 (code bug, shown at the failing input): a single-integer request
(chart 125) to `readYearMonth` or `readMonthYear` yields a table, never a
flat series, because `pd.concat(axis=1)` always builds a `DataFrame` even
from one column — although the readers' own docstrings promise "a pandas
series (if series is int)". -/
theorem readYearMonth_single_returns_table :
    isTableResult (readYearMonth (fun _ => gYM) (.single 125) none none) = true
    ∧ isFlatResult (readYearMonth (fun _ => gYM) (.single 125) none none) = false
    ∧ isTableResult (readMonthYear (fun _ => gMY) (.single 125) none none) = true
    ∧ isFlatResult (readMonthYear (fun _ => gMY) (.single 125) none none) = false := by
  refine ⟨rfl, rfl, rfl, rfl⟩

/-- C2 (counterexample): merging two series that both resolve to the
display name `"M1"` produces two columns that still share the name `"M1"`
— no disambiguating suffix is appended, so the output does have two
columns with the same display name, contrary to the claim. -/
theorem concat_duplicate_names_counterexample :
    ((concatTables dupInputs).cols.map Prod.fst = ["M1", "M1"])
    ∧ ¬ ((concatTables dupInputs).cols.map Prod.fst).Nodup
    ∧ (concatTables dupInputs).cols
        = [("M1", [some 1]), ("M1", [some 2])] := by
  refine ⟨by decide, by decide, by decide⟩

/-- C2 (amended): when two requested series resolve to the same display
name, `pd.concat(axis=1)` keeps both as separate columns, each carrying
its own values — nothing is silently overwritten — but the duplicate name
is kept verbatim on both, with no suffix derived from the series
identifier. -/
theorem concatTables_keeps_duplicate_columns (inputs : List (String × FlatSeries)) :
    (concatTables inputs).cols.length = inputs.length
    ∧ (concatTables inputs).cols.map Prod.fst = inputs.map Prod.fst
    ∧ ∀ p ∈ inputs,
        (p.1, (concatTables inputs).index.map (fun t => lookupTS p.2 t))
          ∈ (concatTables inputs).cols := by
  refine ⟨by simp [concatTables], by simp [concatTables], ?_⟩
  intro p hp
  exact List.mem_map_of_mem _ hp

/-- C2 (witness): the two same-named columns of the duplicate merge are
both present in the output, each with its own value. -/
theorem concatTables_keeps_duplicate_columns_witness :
    (concatTables dupInputs).cols.length = 2
    ∧ ("M1", (concatTables dupInputs).index.map
          (fun t => lookupTS [(0, some 1)] t)) ∈ (concatTables dupInputs).cols :=
  ⟨(concatTables_keeps_duplicate_columns dupInputs).1,
   (concatTables_keeps_duplicate_columns dupInputs).2.2 ("M1", [(0, some 1)])
     (List.mem_cons_self _ _)⟩

/-- C3 (counterexample): in `gC3` the first second-column cell beginning
with `1` or `2` is `"1er Trim"` at row 1, which is not a four-digit year;
the anchor search of `readIndicatorYear` (regex `'^[12]'`) selects it
anyway, skipping the genuine year `"2019"` at row 2 — so a cell that
begins with `1` but is not a four-digit year is selected as the anchor. -/
theorem anchorIndicator_nonyear_counterexample :
    anchorIndicator gC3 = some 1
    ∧ cell gC3 1 1 = "1er Trim"
    ∧ specFourDigitYear (cell gC3 1 1) = false
    ∧ specFourDigitYear (cell gC3 2 1) = true := by
  refine ⟨by decide, by decide, by decide, by decide⟩

/-- C3 (amended): the anchor row of `readIndicatorYear` is the first row
whose second-column cell begins with the character `1` or `2` (the regex
`'^[12]'`); the cell selected this way need not be a four-digit year. -/
theorem anchorIndicator_first_match (g : RawGrid) (i : Nat)
    (h : anchorIndicator g = some i) :
    ∃ c, (column 1 g)[i]? = some c ∧ startsWith12 c = true
      ∧ ∀ j, j < i → ∀ c', (column 1 g)[j]? = some c' → startsWith12 c' = false :=
  findFirstElement_spec startsWith12 (column 1 g) i h

/-- C3 (witness): on `gC3` the anchor is row 1, whose second-column cell
starts with `1` while no earlier second-column cell does. -/
theorem anchorIndicator_first_match_witness :
    anchorIndicator gC3 = some 1
    ∧ ∃ c, (column 1 gC3)[1]? = some c ∧ startsWith12 c = true
      ∧ ∀ j, j < 1 → ∀ c', (column 1 gC3)[j]? = some c' → startsWith12 c' = false :=
  ⟨by decide, anchorIndicator_first_match gC3 1 (by decide)⟩

/-- C4: flattening an adapted sub-grid with a calendar anchor visits the
cells in row-major order, gives the k-th visited cell the k-th monthly
time step counted from the anchor's start period, produces exactly one
output point per sub-grid cell, and turns a textually empty or non-numeric
cell into a missing value instead of failing. -/
theorem flattenGrid_spec (sub : RawGrid) (start : Nat) :
    (flattenGrid sub start).length = (rowMajor sub).length
    ∧ (∀ k c, (rowMajor sub)[k]? = some c →
        (flattenGrid sub start)[k]? = some (start + k, parseCell c))
    ∧ parseCell "" = none
    ∧ parseCell "n.d." = none := by
  refine ⟨?_, ?_, by decide, by decide⟩
  · simp [flattenGrid, monthRange, List.length_zip]
  · intro k c hk
    have hklt : k < (rowMajor sub).length := by
      by_contra hge
      rw [List.getElem?_eq_none (Nat.le_of_not_lt hge)] at hk
      cases hk
    have h1 : (monthRange start (rowMajor sub).length)[k]? = some (start + k) := by
      simp [monthRange, List.getElem?_map, List.getElem?_range, hklt]
    have h2 : ((rowMajor sub).map parseCell)[k]? = some (parseCell c) := by
      simp [List.getElem?_map, hk]
    rw [flattenGrid, List.getElem?_zip_eq_some]
    exact ⟨h1, h2⟩

/-- C4 (witness): on the sample 2-by-2 sub-grid anchored at January 2020
(month index 24240), the fourth visited cell — the empty cell — lands on
the fourth month with a missing value. -/
theorem flattenGrid_spec_witness :
    (flattenGrid [["10", "20"], ["30", ""]] 24240)[3]? = some (24243, none) := by
  have h := (flattenGrid_spec [["10", "20"], ["30", ""]] 24240).2.1 3 "" (by decide)
  have h2 : ((24240 + 3 : Nat), parseCell "") = ((24243 : Nat), (none : Option ℚ)) := by
    decide
  rw [h2] at h
  exact h

/-- C5: merging named series into a table produces a strictly increasing
timestamp axis equal to the union of the input timestamps; each series'
column is present under its name and, looked up on the axis, carries the
series' own value at every timestamp the series possesses (matched
exactly) and a missing value at every axis timestamp it lacks. -/
theorem concatTables_spec (inputs : List (String × FlatSeries))
    (h : ∀ p ∈ inputs, (p.2.map Prod.fst).Nodup) :
    (concatTables inputs).index.Sorted (· < ·)
    ∧ (∀ t, t ∈ (concatTables inputs).index ↔ ∃ p ∈ inputs, ∃ v, (t, v) ∈ p.2)
    ∧ (∀ p ∈ inputs,
        (p.1, (concatTables inputs).index.map (fun t => lookupTS p.2 t))
          ∈ (concatTables inputs).cols
        ∧ (∀ t v, (t, v) ∈ p.2 → lookupTS p.2 t = v)
        ∧ (∀ t, t ∉ p.2.map Prod.fst → lookupTS p.2 t = none)) := by
  refine ⟨sortedUnion_sorted _, ?_, ?_⟩
  · intro t
    rw [show (concatTables inputs).index
        = sortedUnion ((inputs.map (fun p => p.2.map Prod.fst)).flatten) from rfl]
    rw [mem_sortedUnion, List.mem_flatten]
    constructor
    · rintro ⟨l, hl, htl⟩
      rw [List.mem_map] at hl
      obtain ⟨p, hp, rfl⟩ := hl
      rw [List.mem_map] at htl
      obtain ⟨q, hq, rfl⟩ := htl
      exact ⟨p, hp, q.2, by simpa using hq⟩
    · rintro ⟨p, hp, v, hv⟩
      exact ⟨p.2.map Prod.fst, List.mem_map_of_mem _ hp,
        List.mem_map_of_mem Prod.fst hv⟩
  · intro p hp
    exact ⟨List.mem_map_of_mem _ hp,
      fun t v hv => lookupTS_eq_of_mem p.2 t v (h p hp) hv,
      fun t ht => lookupTS_eq_none p.2 t ht⟩

/-- C5 (witness): merging series A (2020-01, 2020-02) and B (2020-02,
2020-03) gives a strictly increasing axis, and series B reads as missing
at 2020-01 (month index 24240), a timestamp it lacks. -/
theorem concatTables_spec_witness :
    (∀ p ∈ inputsAB, (p.2.map Prod.fst).Nodup)
    ∧ (concatTables inputsAB).index.Sorted (· < ·)
    ∧ lookupTS [(24241, some (3 : ℚ)), (24242, some 4)] 24240 = none :=
  ⟨by decide, (concatTables_spec inputsAB (by decide)).1,
    ((concatTables_spec inputsAB (by decide)).2.2
      ("B", [(24241, some 3), (24242, some 4)]) (by decide)).2.2 24240 (by decide)⟩

theorem tidy_none (s : FlatSeries) (func : Option Agg) : tidy s none func = s := rfl

theorem assembled_names (v : String) (l : List String) (f : Nat × String → FlatSeries) :
    (l.enum.map (fun p => (v ++ p.2, f p))).map Prod.fst = l.map (fun x => v ++ x) := by
  rw [List.map_map]
  have hc : (Prod.fst ∘ fun p : Nat × String => (v ++ p.2, f p))
      = (fun x => v ++ x) ∘ Prod.snd := rfl
  rw [hc, ← List.map_map, List.enum_map_snd]

/-- C6 (counterexample): `readIndicatorYear` with an empty caller name on
`gIY` names its columns by the bare indicator names — the title in the
top-left cell is never substituted, although the claim says every reader
replaces an empty name with the resolved title. -/
theorem readIndicatorYear_empty_name_counterexample :
    namesOf (readIndicatorYearChart "" gIY none none) = ["Agriculture", "Industry"]
    ∧ cell gIY 0 0 = "Titulo grande"
    ∧ "Titulo grande" ∉ namesOf (readIndicatorYearChart "" gIY none none) := by
  refine ⟨by decide, by decide, by decide⟩

/-- C6 (amended): `readYearMonth` and `readMonthYear` name their column by
the caller name, falling back to the title in the top-left source cell
when the name is empty; `readIndicatorYear` instead concatenates the
(possibly empty) caller alias in front of each indicator name, with no
title fallback. -/
theorem varName_resolution (v : String) (g : RawGrid) (freq : Option Nat)
    (func : Option Agg) :
    (v ≠ "" → resolveVarName v g = v)
    ∧ resolveVarName "" g = cell g 0 0
    ∧ (∀ nm s, readYearMonthChart v g freq func = .ok (nm, s) → nm = resolveVarName v g)
    ∧ (∀ nm s, readMonthYearChart v g freq func = .ok (nm, s) → nm = resolveVarName v g)
    ∧ (∀ l, readIndicatorYearChart v g freq func = .ok l →
        l.map Prod.fst
          = (g.drop ((anchorIndicator g).getD 0 + 1)).map (fun r => v ++ r.getD 0 "")) := by
  refine ⟨fun hv => by simp [resolveVarName, hv], by simp [resolveVarName], ?_, ?_, ?_⟩
  · intro nm s hok
    cases hfe : findFirstElement matchesEnero (column 1 g) with
    | none => simp [readYearMonthChart, hfe] at hok
    | some h =>
      cases hpy : parseYear (cell (g.drop (h + 1)) 0 0) with
      | none => simp [readYearMonthChart, hfe, hpy] at hok
      | some y0 =>
        simp only [readYearMonthChart, hfe, hpy, Except.ok.injEq, Prod.mk.injEq] at hok
        exact hok.1.symm
  · intro nm s hok
    cases hfe : findFirstElement matchesEnero (column 0 g) with
    | none => simp [readMonthYearChart, hfe] at hok
    | some h =>
      cases hpy : parseYear (cell g (if h = 0 then g.length - 1 else h - 1) 1) with
      | none => simp [readMonthYearChart, hfe, hpy] at hok
      | some y0 =>
        simp only [readMonthYearChart, hfe, hpy, Except.ok.injEq, Prod.mk.injEq] at hok
        exact hok.1.symm
  · intro l hok
    cases ha : anchorIndicator g with
    | none => simp [readIndicatorYearChart, ha] at hok
    | some h =>
      cases hpy : parseYear (cell g h 1) with
      | none => simp [readIndicatorYearChart, ha, hpy] at hok
      | some y0 =>
        simp only [readIndicatorYearChart, ha, hpy, Except.ok.injEq] at hok
        subst hok
        rw [assembled_names, List.map_map]
        rfl

/-- C6 (witness): on `gIY` with the empty alias, the column names of the
indicator reader are exactly the bare indicator names of the rows below
the anchor. -/
theorem varName_resolution_witness :
    ([("Agriculture", [((24239 : Nat), some (10 : ℚ)), (24251, some 20)]),
      ("Industry", [(24239, some 30), (24251, some 40)])]
        : List (String × FlatSeries)).map Prod.fst
      = (gIY.drop ((anchorIndicator gIY).getD 0 + 1)).map (fun r => "" ++ r.getD 0 "") :=
  (varName_resolution "" gIY none none).2.2.2.2
    [("Agriculture", [(24239, some 10), (24251, some 20)]),
     ("Industry", [(24239, some 30), (24251, some 40)])] (by rfl)

/-- C7: when the expected anchor token (`'Enero'` for the two month/year
layouts) or year pattern (`'^[12]'` for the indicator layout) occurs
nowhere in the scanned column, the corresponding reader fails with
`UnrecognizedLayout` instead of producing a result. -/
theorem readers_fail_without_anchor (v : String) (g : RawGrid)
    (freq : Option Nat) (func : Option Agg) :
    ((∀ c ∈ column 1 g, matchesEnero c = false) →
        readYearMonthChart v g freq func = .error .UnrecognizedLayout)
    ∧ ((∀ c ∈ column 0 g, matchesEnero c = false) →
        readMonthYearChart v g freq func = .error .UnrecognizedLayout)
    ∧ ((∀ c ∈ column 1 g, startsWith12 c = false) →
        readIndicatorYearChart v g freq func = .error .UnrecognizedLayout) := by
  refine ⟨?_, ?_, ?_⟩
  · intro hall
    unfold readYearMonthChart
    rw [findFirstElement_eq_none _ _ hall]
  · intro hall
    unfold readMonthYearChart
    rw [findFirstElement_eq_none _ _ hall]
  · intro hall
    unfold readIndicatorYearChart anchorIndicator
    rw [findFirstElement_eq_none _ _ hall]

/-- C7 (witness): on `gBad`, whose cells match no anchor, all three
readers fail with `UnrecognizedLayout`. -/
theorem readers_fail_without_anchor_witness :
    (∀ c ∈ column 1 gBad, matchesEnero c = false)
    ∧ readYearMonthChart "x" gBad none none = .error .UnrecognizedLayout
    ∧ readMonthYearChart "x" gBad none none = .error .UnrecognizedLayout
    ∧ readIndicatorYearChart "x" gBad none none = .error .UnrecognizedLayout :=
  ⟨by decide, (readers_fail_without_anchor "x" gBad none none).1 (by decide),
   (readers_fail_without_anchor "x" gBad none none).2.1 (by decide),
   (readers_fail_without_anchor "x" gBad none none).2.2 (by decide)⟩

/-- C8: on a grid whose sub-grid below the anchor has `m` indicator rows
of `n` year columns each, `readIndicatorYear` emits `m` series, named by
the caller alias concatenated in front of the first-column indicator
names, each with exactly `n` annual points stamped at the December
month-end of consecutive years from the anchor year. -/
theorem readIndicatorYearChart_shape (v : String) (g : RawGrid) (h y0 n : Nat)
    (ha : anchorIndicator g = some h)
    (hy : parseYear (cell g h 1) = some y0)
    (hne : g.drop (h + 1) ≠ [])
    (hw : ∀ r ∈ g.drop (h + 1), r.length = n + 1) :
    ∃ l, readIndicatorYearChart v g none none = .ok l
      ∧ l.length = (g.drop (h + 1)).length
      ∧ l.map Prod.fst = (g.drop (h + 1)).map (fun r => v ++ r.getD 0 "")
      ∧ ∀ q ∈ l, q.2.map Prod.fst = (List.range n).map (fun k => decemberOf (y0 + k))
          ∧ q.2.length = n := by
  have hlen : (transposeGrid ((g.drop (h + 1)).map (fun r => r.drop 1))).length = n := by
    unfold transposeGrid
    rw [List.length_map, List.length_range]
    cases hrows : g.drop (h + 1) with
    | nil => exact absurd hrows hne
    | cons r0 rest =>
      have hr0 := hw r0 (by rw [hrows]; exact List.mem_cons_self _ _)
      simp [List.length_drop, hr0]
  simp only [readIndicatorYearChart, ha, hy]
  refine ⟨_, rfl, ?_, ?_, ?_⟩
  · simp
  · rw [assembled_names, List.map_map]
    rfl
  · intro q hq
    rw [List.mem_map] at hq
    obtain ⟨p, hp, rfl⟩ := hq
    rw [tidy_none]
    have hvlen : (List.map parseCell
        ((transposeGrid ((g.drop (h + 1)).map (fun r => r.drop 1))).map
          (fun tr => tr.getD p.1 ""))).length = n := by
      rw [List.length_map, List.length_map, hlen]
    have hal : (annualRange y0
        (transposeGrid ((g.drop (h + 1)).map (fun r => r.drop 1))).length).length = n := by
      unfold annualRange
      rw [List.length_map, List.length_range, hlen]
    constructor
    · rw [List.map_fst_zip _ _ (le_of_eq (hal.trans hvlen.symm)), hlen]
      rfl
    · rw [List.length_zip, hal, hvlen]
      exact min_self n

/-- C8 (witness): the Agriculture/Industry sample grid with alias `Real_`
yields two series with two annual December points each, for 2019 and
2020. -/
theorem readIndicatorYearChart_shape_witness :
    anchorIndicator gIY = some 2
    ∧ ∃ l, readIndicatorYearChart "Real_" gIY none none = .ok l
      ∧ l.length = (gIY.drop 3).length
      ∧ l.map Prod.fst = (gIY.drop 3).map (fun r => "Real_" ++ r.getD 0 "")
      ∧ ∀ q ∈ l, q.2.map Prod.fst = (List.range 2).map (fun k => decemberOf (2019 + k))
          ∧ q.2.length = 2 :=
  ⟨by decide, readIndicatorYearChart_shape "Real_" gIY 2 2019 2
    (by decide) (by decide) (by decide) (by decide)⟩

theorem sumCount_fst (xs : List (Option ℚ)) : (sumCount xs).1 = xs.reduceOption.sum := by
  induction xs with
  | nil => rfl
  | cons x xs ih => cases x <;> simp [sumCount, List.reduceOption, ih, add_comm]

theorem sumCount_snd (xs : List (Option ℚ)) : (sumCount xs).2 = xs.reduceOption.length := by
  induction xs with
  | nil => rfl
  | cons x xs ih => cases x <;> simp [sumCount, List.reduceOption, ih]

theorem sumCount_snd_zero (xs : List (Option ℚ)) (h : ∀ v ∈ xs, v = none) :
    (sumCount xs).2 = 0 := by
  induction xs with
  | nil => rfl
  | cons x xs ih =>
    have hx := h x (List.mem_cons_self x xs)
    subst hx
    exact ih (fun v hv => h v (List.mem_cons_of_mem _ hv))

/-- C9: under the default aggregation, a resampling window whose every
input is missing produces a missing output, and a window with at least one
present value produces the arithmetic mean of its non-missing inputs. -/
theorem resample_default_policy (w : Nat) (pts : FlatSeries) (k : Nat)
    (hk : k ∈ (pts.map (fun p => p.1 / w)).dedup) :
    ((∀ v ∈ windowVals w pts k, v = none) → (k, none) ∈ tidy pts (some w) none)
    ∧ (∀ a, some a ∈ windowVals w pts k →
        (k, some ((windowVals w pts k).reduceOption.sum
            / ((windowVals w pts k).reduceOption.length : ℚ))) ∈ tidy pts (some w) none) := by
  have hmem : ∀ val, aggMean (windowVals w pts k) = val →
      (k, val) ∈ tidy pts (some w) none := by
    intro val hval
    have hin : (k, aggMean (windowVals w pts k)) ∈ resample w aggMean pts :=
      List.mem_map_of_mem _ hk
    rw [hval] at hin
    exact hin
  constructor
  · intro hall
    apply hmem
    unfold aggMean
    rw [if_pos (sumCount_snd_zero _ hall)]
  · intro a ha
    apply hmem
    have hmm : a ∈ (windowVals w pts k).reduceOption :=
      List.reduceOption_mem_iff.mpr ha
    have hcnt : (sumCount (windowVals w pts k)).2 ≠ 0 := by
      rw [sumCount_snd]
      exact Nat.pos_iff_ne_zero.mp (List.length_pos.mpr (List.ne_nil_of_mem hmm))
    unfold aggMean
    rw [if_neg hcnt, sumCount_fst, sumCount_snd]

/-- C9 (witness): the quarter window holding values 10, 20 and a missing
cell resamples to 15; a window that is entirely missing resamples to
missing. -/
theorem resample_default_policy_witness :
    ((8080 : Nat), some (15 : ℚ))
        ∈ tidy [(24240, some 10), (24241, some 20), (24242, none)] (some 3) none
    ∧ ((8081 : Nat), (none : Option ℚ)) ∈ tidy [(24243, none)] (some 3) none := by
  constructor
  · have h := (resample_default_policy 3
      [(24240, some 10), (24241, some 20), (24242, none)] 8080 (by decide)).2 10 (by decide)
    have hwv : windowVals 3 [(24240, some 10), (24241, some 20), (24242, none)] 8080
        = [some 10, some 20, none] := by decide
    rw [hwv] at h
    have he : some ((([some (10 : ℚ), some 20, none] : List (Option ℚ)).reduceOption.sum)
        / ((([some (10 : ℚ), some 20, none] : List (Option ℚ)).reduceOption.length : ℚ)))
          = some (15 : ℚ) := by
      norm_num [List.reduceOption, List.filterMap_cons]
    rw [he] at h
    exact h
  · exact (resample_default_policy 3 [(24243, none)] 8081 (by decide)).1 (by decide)

end BCCR
